import Mathlib

/-!
Shallow embedding of the tile-based raster compositing core of
`src/lib/tiledsurface.hpp` (class `TiledSurface` and the free function
`composite_tile_over_rgb8`).

Machine integers are modelled as `Nat`/`Int` with explicit `% 2^w` at the
points where the C code performs fixed-width arithmetic; `float` quantities
are modelled as exact rationals; the external Python tile store and the
observer callback are modelled as explicit function parameters.
-/

namespace MyPaint

/-- Pixel-space rectangle, as used for the dirty bounding box.
Modelled from the spec: the `Rect` type itself lives outside `src/`;
per the data model it is `{x, y, w, h}` in pixel space with `w == 0`
denoting the empty region. -/
structure Rect where
  x : Int
  y : Int
  w : Int
  h : Int
deriving DecidableEq

/-- Modelled from the spec: `ExpandRectToIncludePoint` is declared outside
`src/`; per the spec, `expand(px, py)` grows the box to include the point
`(px, py)`, where a box with `w == 0` is the empty region. -/
def ExpandRectToIncludePoint (r : Rect) (px py : Int) : Rect :=
  if r.w = 0 then ⟨px, py, 1, 1⟩
  else
    let x0 := min r.x px
    let y0 := min r.y py
    let x1 := max (r.x + r.w - 1) px
    let y1 := max (r.y + r.h - 1) py
    ⟨x0, y0, x1 - x0 + 1, y1 - y0 + 1⟩

/-- Containment of a pixel in a `Rect` (pixel `(px, py)` is covered by the
rectangle). -/
def rectContains (r : Rect) (px py : Int) : Prop :=
  r.x ≤ px ∧ px ≤ r.x + r.w - 1 ∧ r.y ≤ py ∧ py ≤ r.y + r.h - 1

instance (r : Rect) (px py : Int) : Decidable (rectContains r px py) := by
  unfold rectContains; infer_instance

/-- One RGBA pixel of a 16-bit premultiplied tile buffer (`uint16_t` values). -/
structure Pixel where
  r : Nat
  g : Nat
  b : Nat
  a : Nat
deriving DecidableEq

/-- One RGB pixel of the 8-bit destination buffer of
`composite_tile_over_rgb8`. -/
structure RGB8 where
  r : Nat
  g : Nat
  b : Nat
deriving DecidableEq

/-- One entry of the `tileMemory` pointer cache (`struct TileMemory`):
tile coordinates plus the buffer reference (`rgba_p`, here an abstract
buffer identifier into the heap). -/
structure CacheEntry where
  tx : Int
  ty : Int
  rgba_p : Nat
deriving DecidableEq

/-- The mutable state of a `TiledSurface`: dirty bounding box, batch nesting
counter `atomic`, and the fixed-capacity tile-pointer cache
(`tileMemory` array with `tileMemoryValid` entries valid and round-robin
write position `tileMemoryWrite`). -/
structure SurfaceState where
  dirty_bbox : Rect
  atomic : Int
  tileMemory : Nat → CacheEntry
  tileMemoryValid : Nat
  tileMemoryWrite : Nat

/-- `TILE_MEMORY_SIZE` from the source. -/
def TILE_MEMORY_SIZE : Nat := 8

/-- State established by the `TiledSurface` constructor: `atomic = 0`,
`dirty_bbox.w = 0`, empty cache. -/
def initSurface : SurfaceState :=
  { dirty_bbox := ⟨0, 0, 0, 0⟩
    atomic := 0
    tileMemory := fun _ => ⟨0, 0, 0⟩
    tileMemoryValid := 0
    tileMemoryWrite := 0 }

/-- `begin_atomic`: increments the nesting counter. (The `assert`s on the
depth-0 entry state are preconditions, stated as hypotheses where needed.) -/
def begin_atomic (st : SurfaceState) : SurfaceState :=
  { st with atomic := st.atomic + 1 }

/-- `end_atomic`: decrements the nesting counter; on the outermost close
(counter reaching 0) clears the cache, resets the dirty box and returns the
dirty-region notification to be delivered (`some bbox` exactly when
`bbox.w > 0`, mirroring the guarded `notify_observers` call). -/
def end_atomic (st : SurfaceState) : SurfaceState × Option Rect :=
  let st1 := { st with atomic := st.atomic - 1 }
  if st1.atomic = 0 then
    let bbox := st.dirty_bbox
    let st2 := { st1 with
                 tileMemoryValid := 0
                 tileMemoryWrite := 0
                 dirty_bbox := { st.dirty_bbox with w := 0 } }
    if bbox.w > 0 then (st2, some bbox) else (st2, none)
  else (st1, none)

/-- `end_atomic` together with the delivery of the notification to the
observer collaborator; `notify` returns `false` to model a failing
`notify_observers` call (which the C code only logs). -/
def end_atomic_notify (notify : Rect → Bool) (st : SurfaceState) :
    SurfaceState × Bool :=
  let res := end_atomic st
  match res.2 with
  | some r => (res.1, notify r)
  | none => (res.1, true)

/-- The linear scan of `get_tile_memory` over the first `valid` cache
entries, returning the first entry matching `(tx, ty)`. -/
def cacheFind (mem : Nat → CacheEntry) (valid : Nat) (tx ty : Int) :
    Option Nat :=
  (List.range valid).findSome? fun i =>
    if (mem i).tx = tx ∧ (mem i).ty = ty then some (mem i).rgba_p else none

/-- Result of one `get_tile_memory` call: the returned buffer reference
(`none` models the NULL return on store failure), the updated surface state,
and whether the external store was called. -/
structure FetchResult where
  rgba : Option Nat
  state : SurfaceState
  storeCalled : Bool

/-- `get_tile_memory`: cache lookup; on miss, calls the external store
(`store tx ty readonly`), and — only for write-mode requests — inserts the
result at the round-robin write position, growing the valid count up to
`TILE_MEMORY_SIZE`. -/
def get_tile_memory (store : Int → Int → Bool → Option Nat)
    (st : SurfaceState) (tx ty : Int) (readonly : Bool) : FetchResult :=
  match cacheFind st.tileMemory st.tileMemoryValid tx ty with
  | some p => ⟨some p, st, false⟩
  | none =>
    match store tx ty readonly with
    | none => ⟨none, st, true⟩
    | some p =>
      if readonly then ⟨some p, st, true⟩
      else
        ⟨some p,
         { st with
           tileMemory := Function.update st.tileMemory st.tileMemoryWrite
             ⟨tx, ty, p⟩
           tileMemoryValid :=
             if st.tileMemoryValid < TILE_MEMORY_SIZE then
               st.tileMemoryValid + 1
             else st.tileMemoryValid
           tileMemoryWrite := (st.tileMemoryWrite + 1) % TILE_MEMORY_SIZE },
         true⟩

/-- `TILE_SIZE` from the source (as an integer coordinate quantity). -/
def TILE_SIZE : Int := 64

/-- Truncation of a `uint32_t` computation (`% 2^32`). -/
def u32 (n : Nat) : Nat := n % 2 ^ 32

/-- Truncation of a store into a `uint16_t` slot (`% 2^16`). -/
def u16 (n : Nat) : Nat := n % 2 ^ 16

/-- Conversion of a signed intermediate into `uint32_t` (two's-complement
wraparound, as in `(1<<15) - opa_a` on unsigned operands). -/
def i2u32 (n : Int) : Nat := (n % 2 ^ 32).toNat

/-- Conversion of a nonnegative `float` value to `uint32_t`: truncation
toward zero. -/
def f2u32 (q : ℚ) : Nat := ⌊q⌋.toNat

/-- The 15-bit fixed-point dab color channel:
`uint32_t color_r_ = color_r * (1<<15)`. -/
def dabColor (c : ℚ) : Nat := f2u32 (c * 2 ^ 15)

/-- The immutable per-call dab parameters of `draw_dab`. -/
structure DabParams where
  x : ℚ
  y : ℚ
  radius : ℚ
  color_r : ℚ
  color_g : ℚ
  color_b : ℚ
  opaque_ : ℚ
  hardness : ℚ
  alpha_eraser : ℚ

/-- Lowest affected tile index along one axis:
`floor(floor(c - r_fringe) / TILE_SIZE)` with `r_fringe = radius + 1`. -/
def tileIndexLow (c radius : ℚ) : Int :=
  ⌊((⌊c - (radius + 1)⌋ : Int) : ℚ) / 64⌋

/-- Highest affected tile index along one axis:
`floor(floor(c + r_fringe) / TILE_SIZE)`. -/
def tileIndexHigh (c radius : ℚ) : Int :=
  ⌊((⌊c + (radius + 1)⌋ : Int) : ℚ) / 64⌋

/-- The inclusive integer range `[a, b]` as a list, in increasing order. -/
def intRange (a b : Int) : List Int :=
  (List.range (b + 1 - a).toNat).map fun i => a + i

/-- The tile visit order of `draw_dab` and `get_color`: `ty` outer loop,
`tx` inner loop, both over the mapped inclusive tile range. -/
def tileRange (x y radius : ℚ) : List (Int × Int) :=
  (intRange (tileIndexLow y radius) (tileIndexHigh y radius)).flatMap fun ty =>
    (intRange (tileIndexLow x radius) (tileIndexHigh x radius)).map fun tx =>
      (tx, ty)

/-- The clipped per-tile pixel sub-rectangle `[x0, x1] × [y0, y1]`. -/
structure ClipRect where
  x0 : Int
  y0 : Int
  x1 : Int
  y1 : Int

/-- Lower clamp of the loop bound: `if (v < 0) v = 0;`. -/
def clipLow (v : Int) : Int := if v < 0 then 0 else v

/-- Upper clamp of the loop bound: `if (v > TILE_SIZE-1) v = TILE_SIZE-1;`. -/
def clipHigh (v : Int) : Int := if v > 63 then 63 else v

/-- The clipped pixel sub-rectangle of tile `(tx, ty)` for a footprint at
`(x, y)` with the given radius, exactly as computed in `draw_dab` and
`get_color` (local center `xc = x - tx*TILE_SIZE`, bounds
`floor(xc - r_fringe)`, `ceil(xc + r_fringe)`, clamped one-sidedly). -/
def tileClip (x y radius : ℚ) (tx ty : Int) : ClipRect :=
  let xc := x - tx * 64
  let yc := y - ty * 64
  { x0 := clipLow ⌊xc - (radius + 1)⌋
    y0 := clipLow ⌊yc - (radius + 1)⌋
    x1 := clipHigh ⌈xc + (radius + 1)⌉
    y1 := clipHigh ⌈yc + (radius + 1)⌉ }

/-- The flat buffer index of the first channel of pixel `(yp, xp)`:
`idx = (yp*TILE_SIZE + xp)*4`. -/
def pixelIdx (yp xp : Int) : Int := (yp * 64 + xp) * 4

/-- The pixel visit order of the inner loops: `yp` outer, `xp` inner. -/
def pixelList (c : ClipRect) : List (Int × Int) :=
  (intRange c.y0 c.y1).flatMap fun yp =>
    (intRange c.x0 c.x1).map fun xp => (yp, xp)

/-- The normalized squared distance
`rr = ((yp+0.5-yc)^2 + (xp+0.5-xc)^2) / radius^2` of pixel `(yp, xp)` of
tile `(tx, ty)` from the dab center. -/
def rrAt (x y radius : ℚ) (tx ty yp xp : Int) : ℚ :=
  let xc := x - tx * 64
  let yc := y - ty * 64
  ((yp + 1 / 2 - yc) * (yp + 1 / 2 - yc) +
    (xp + 1 / 2 - xc) * (xp + 1 / 2 - xc)) * (1 / (radius * radius))

/-- The hardness-based opacity falloff applied to `opaque` at normalized
squared distance `rr` (the `opa` computation of `draw_dab`). -/
def dabOpacity (opaque_ hardness rr : ℚ) : ℚ :=
  if hardness < 1 then
    if rr < hardness then opaque_ * (rr + 1 - rr / hardness)
    else opaque_ * (hardness / (hardness - 1) * (rr - 1))
  else opaque_

/-- The raw 15-bit top alpha `uint32_t opa_a = (1<<15)*opa` (before the
eraser scaling). -/
def opaFixed (opa : ℚ) : Nat := f2u32 (2 ^ 15 * opa)

/-- The bottom alpha `uint32_t opa_b = (1<<15) - opa_a` (computed before
the eraser scaling). -/
def opaBottom (opa : ℚ) : Nat := i2u32 (2 ^ 15 - (opaFixed opa : Int))

/-- The effective top alpha after the eraser scaling
`opa_a *= alpha_eraser` (a `uint32_t`-to-`float` round trip, truncated). -/
def opaTop (opa alpha_eraser : ℚ) : Nat :=
  f2u32 ((opaFixed opa : ℚ) * alpha_eraser)

/-- The per-pixel premultiplied "over" composite of `draw_dab`: each channel
written with truncating fixed-point arithmetic into a `uint16_t` slot. -/
def composePixel (opa alpha_eraser : ℚ) (cr cg cb : Nat) (p : Pixel) :
    Pixel :=
  let opa_a : Nat := opaTop opa alpha_eraser
  let opa_b : Nat := opaBottom opa
  { a := u16 (u32 (opa_a + u32 (opa_b * p.a) / 2 ^ 15))
    r := u16 (u32 (u32 (opa_a * cr) + u32 (opa_b * p.r)) / 2 ^ 15)
    g := u16 (u32 (u32 (opa_a * cg) + u32 (opa_b * p.g)) / 2 ^ 15)
    b := u16 (u32 (u32 (opa_a * cb) + u32 (opa_b * p.b)) / 2 ^ 15) }

/-- The per-tile inner loops of `draw_dab`: visit the clipped sub-rectangle
and composite every pixel with `rr <= 1.0`; the buffer maps the pixel index
`yp*TILE_SIZE + xp` to its RGBA channels. -/
def writeTileDab (d : DabParams) (tx ty : Int) (buf : Int → Pixel) :
    Int → Pixel :=
  (pixelList (tileClip d.x d.y d.radius tx ty)).foldl
    (fun b yx =>
      let rr := rrAt d.x d.y d.radius tx ty yx.1 yx.2
      if rr ≤ 1 then
        Function.update b (yx.1 * 64 + yx.2)
          (composePixel (dabOpacity d.opaque_ d.hardness rr) d.alpha_eraser
            (dabColor d.color_r) (dabColor d.color_g) (dabColor d.color_b)
            (b (yx.1 * 64 + yx.2)))
      else b)
    buf

/-- The surface state together with the tile buffers owned by the external
store, addressed by the buffer references it hands out. -/
structure World where
  surf : SurfaceState
  heap : Nat → Int → Pixel

/-- The tile loop of `draw_dab`: fetch each tile in write mode through the
cache; on a failed fetch stop immediately (the C code `return true`),
flagged by the `false` completion component. -/
def drawTileLoop (store : Int → Int → Bool → Option Nat) (d : DabParams) :
    List (Int × Int) → World → World × Bool
  | [], w => (w, true)
  | t :: rest, w =>
    let fr := get_tile_memory store w.surf t.1 t.2 false
    match fr.rgba with
    | none => ({ w with surf := fr.state }, false)
    | some ref =>
      drawTileLoop store d rest
        { surf := fr.state
          heap := Function.update w.heap ref
            (writeTileDab d t.1 t.2 (w.heap ref)) }

/-- `draw_dab`: degenerate-input guards, the tile loop, and — only when the
loop ran to completion — the two dirty-box expansions with the dab's
bounding rectangle; returns whether the surface was (possibly) modified. -/
def draw_dab (store : Int → Int → Bool → Option Nat) (w : World)
    (d : DabParams) : Bool × World :=
  if d.opaque_ = 0 then (false, w)
  else if d.radius < 1 / 10 then (false, w)
  else if d.hardness = 0 then (false, w)
  else
    let res := drawTileLoop store d (tileRange d.x d.y d.radius) w
    if res.2 then
      let bb_x := ⌊d.x - (d.radius + 1)⌋
      let bb_y := ⌊d.y - (d.radius + 1)⌋
      let bb_w := ⌈2 * (d.radius + 1)⌉
      let bb_h := ⌈2 * (d.radius + 1)⌉
      let r1 := ExpandRectToIncludePoint res.1.surf.dirty_bbox bb_x bb_y
      let r2 := ExpandRectToIncludePoint r1 (bb_x + bb_w - 1)
        (bb_y + bb_h - 1)
      (true, { res.1 with surf := { res.1.surf with dirty_bbox := r2 } })
    else (true, res.1)

/-- `composite_tile_over_rgb8` (the flatten operation): per pixel,
`one_minus_topAlpha = (1<<15) - src.a` as `uint32_t`, and each destination
channel `(src.c*255 + one_minus_topAlpha*dst.c) / (1<<15)` stored into a
`uint8_t`. The buffers are indexed by the row-major pixel number
`y*TILE_SIZE + x`, ranging over `[0, TILE_SIZE*TILE_SIZE)`. -/
def composite_tile_over_rgb8 (src : Int → Pixel) (dst : Int → RGB8) :
    Int → RGB8 :=
  fun p =>
    if 0 ≤ p ∧ p < 64 * 64 then
      let one_minus_topAlpha : Nat := i2u32 (2 ^ 15 - ((src p).a : Int))
      { r := u32 (u32 ((src p).r * 255) +
          u32 (one_minus_topAlpha * (dst p).r)) / 2 ^ 15 % 2 ^ 8
        g := u32 (u32 ((src p).g * 255) +
          u32 (one_minus_topAlpha * (dst p).g)) / 2 ^ 15 % 2 ^ 8
        b := u32 (u32 ((src p).b * 255) +
          u32 (one_minus_topAlpha * (dst p).b)) / 2 ^ 15 % 2 ^ 8 }
    else dst p

/-! Helper lemmas (shared by several claim theorems). -/

/-- Inner (nested) close: only the depth counter changes, no notification. -/
lemma end_atomic_inner (st : SurfaceState) (h : 1 < st.atomic) :
    end_atomic st = ({ st with atomic := st.atomic - 1 }, none) := by
  unfold end_atomic
  have : ¬ (st.atomic - 1 = 0) := by omega
  simp [this]

/-- Outermost close: cache cleared, dirty box reset, notification returned
exactly when the accumulated region is non-empty. -/
lemma end_atomic_outer (st : SurfaceState) (h : st.atomic = 1) :
    end_atomic st =
      ({ st with
          atomic := 0, tileMemoryValid := 0, tileMemoryWrite := 0,
          dirty_bbox := { st.dirty_bbox with w := 0 } },
       if st.dirty_bbox.w > 0 then some st.dirty_bbox else none) := by
  unfold end_atomic
  rw [h]
  norm_num
  split_ifs <;> rfl

/-! Claim C3. -/

/-- C3: for every dab with `opaque == 0`, or `radius < 0.1`, or
`hardness == 0`, `draw_dab` returns `false` and leaves the whole world
(every tile buffer and the dirty region) unchanged. -/
theorem draw_dab_degenerate_noop (store : Int → Int → Bool → Option Nat)
    (w : World) (d : DabParams)
    (h : d.opaque_ = 0 ∨ d.radius < 1 / 10 ∨ d.hardness = 0) :
    draw_dab store w d = (false, w) := by
  unfold draw_dab
  split_ifs with h1 h2 h3 _h4 <;> try rfl
  all_goals rcases h with h | h | h
  all_goals first | exact absurd h h1 | exact absurd h h3 | linarith

/-- Concrete instance of C3: a dab with zero opacity at a populated world. -/
theorem draw_dab_degenerate_noop_witness :
    draw_dab (fun _ _ _ => some 1)
      ⟨initSurface, fun _ _ => ⟨1, 2, 3, 4⟩⟩
      ⟨5, 5, 3, 1, 1, 1, 0, 1, 1⟩ =
      (false, ⟨initSurface, fun _ _ => ⟨1, 2, 3, 4⟩⟩) :=
  draw_dab_degenerate_noop _ _ _ (Or.inl rfl)

/-! Claim C4. -/

/-- C4: in any balanced batch nesting, a close at depth `> 1` changes only
the depth counter and issues no notification, while the close taking the
depth from 1 to 0 clears the cache (valid count and write index zero),
resets the dirty region, and issues the single notification exactly when
the accumulated region is non-empty. -/
theorem end_atomic_nesting_behavior (st : SurfaceState) :
    (1 < st.atomic →
      end_atomic st = ({ st with atomic := st.atomic - 1 }, none)) ∧
    (st.atomic = 1 →
      end_atomic st =
        ({ st with
            atomic := 0, tileMemoryValid := 0, tileMemoryWrite := 0,
            dirty_bbox := { st.dirty_bbox with w := 0 } },
         if st.dirty_bbox.w > 0 then some st.dirty_bbox else none)) :=
  ⟨fun h => end_atomic_inner st h, fun h => end_atomic_outer st h⟩

/-- A nested close at depth 2 and an outermost close at depth 1, on concrete
states. -/
def stDepth2 : SurfaceState :=
  { dirty_bbox := ⟨3, 4, 5, 6⟩, atomic := 2, tileMemory := fun _ => ⟨0, 0, 0⟩
    tileMemoryValid := 2, tileMemoryWrite := 2 }

/-- Outermost-close concrete state with a non-empty dirty region. -/
def stDepth1 : SurfaceState :=
  { dirty_bbox := ⟨3, 4, 5, 6⟩, atomic := 1, tileMemory := fun _ => ⟨0, 0, 0⟩
    tileMemoryValid := 2, tileMemoryWrite := 2 }

/-- Concrete instance of C4 at depth 2 and at depth 1. -/
theorem end_atomic_nesting_behavior_witness :
    end_atomic stDepth2 = ({ stDepth2 with atomic := stDepth2.atomic - 1 },
      none) ∧
    end_atomic stDepth1 =
      ({ stDepth1 with
          atomic := 0, tileMemoryValid := 0, tileMemoryWrite := 0,
          dirty_bbox := { stDepth1.dirty_bbox with w := 0 } },
       if stDepth1.dirty_bbox.w > 0 then some stDepth1.dirty_bbox
       else none) :=
  ⟨(end_atomic_nesting_behavior stDepth2).1 (by norm_num [stDepth2]),
   (end_atomic_nesting_behavior stDepth1).2 (by norm_num [stDepth1])⟩

/-! Claim C6. -/

/-- C6: a read-only tile fetch that misses the cache leaves the whole cache
state (valid count, write index and all entries) unchanged: read-only
fetches are never inserted. -/
theorem readonly_fetch_not_cached (store : Int → Int → Bool → Option Nat)
    (st : SurfaceState) (tx ty : Int)
    (hmiss : cacheFind st.tileMemory st.tileMemoryValid tx ty = none) :
    (get_tile_memory store st tx ty true).state = st := by
  unfold get_tile_memory
  rw [hmiss]
  cases hs : store tx ty true <;> simp [hs]

/-- Concrete instance of C6: a read-only miss on the fresh cache. -/
theorem readonly_fetch_not_cached_witness :
    (get_tile_memory (fun _ _ _ => some 7) initSurface 5 9 true).state =
      initSurface :=
  readonly_fetch_not_cached _ _ _ _ rfl

/-! Claim C8. -/

/-- C8: on the outermost close the core resets its bookkeeping (dirty region
emptied, cache valid count and write index zeroed) before the notification
is delivered, so the resulting core state is the same whatever the
notification callback does (including failing). -/
theorem end_atomic_reset_before_notify (notify : Rect → Bool)
    (st : SurfaceState) (h : st.atomic = 1) :
    (end_atomic_notify notify st).1 = (end_atomic st).1 ∧
    (end_atomic_notify notify st).1.dirty_bbox.w = 0 ∧
    (end_atomic_notify notify st).1.tileMemoryValid = 0 ∧
    (end_atomic_notify notify st).1.tileMemoryWrite = 0 := by
  have h1 : (end_atomic_notify notify st).1 = (end_atomic st).1 := by
    unfold end_atomic_notify
    cases hr : (end_atomic st).2 <;> simp [hr]
  have h2 := end_atomic_outer st h
  refine ⟨h1, ?_, ?_, ?_⟩ <;> rw [h1, h2]

/-- Concrete instance of C8: a failing notification callback at an
outermost close with a non-empty dirty region. -/
theorem end_atomic_reset_before_notify_witness :
    (end_atomic_notify (fun _ => false) stDepth1).1 =
      (end_atomic stDepth1).1 ∧
    (end_atomic_notify (fun _ => false) stDepth1).1.dirty_bbox.w = 0 ∧
    (end_atomic_notify (fun _ => false) stDepth1).1.tileMemoryValid = 0 ∧
    (end_atomic_notify (fun _ => false) stDepth1).1.tileMemoryWrite = 0 :=
  end_atomic_reset_before_notify _ stDepth1 (by norm_num [stDepth1])

/-! Claim C1 scenario: open batch, draw the dab
`(100, 100, r=10, color=(1,0,0), opacity=1, hardness=0.5)`, close batch. -/

/-- A tile store that always succeeds, handing out buffer reference 1. -/
def scenarioStore : Int → Int → Bool → Option Nat := fun _ _ _ => some 1

/-- An all-transparent heap. -/
def zeroHeap : Nat → Int → Pixel := fun _ _ => ⟨0, 0, 0, 0⟩

/-- The dab of the C1 scenario. -/
def scenarioDab : DabParams :=
  { x := 100, y := 100, radius := 10, color_r := 1, color_g := 0
    color_b := 0, opaque_ := 1, hardness := 1 / 2, alpha_eraser := 1 }

/-- The world right after `begin_atomic` on a fresh surface. -/
def scenarioW0 : World := ⟨begin_atomic initSurface, zeroHeap⟩

/-- The notification produced by closing the batch after the scenario dab. -/
def scenarioNotification : Option Rect :=
  (end_atomic (draw_dab scenarioStore scenarioW0 scenarioDab).2.surf).2

/-- Concrete floor value for the scenario dab. -/
lemma floor_100_sub : (⌊(100 : ℚ) - (10 + 1)⌋ : ℤ) = 89 := by
  rw [Int.floor_eq_iff]; norm_num

/-- Concrete floor value for the scenario dab. -/
lemma floor_100_add : (⌊(100 : ℚ) + (10 + 1)⌋ : ℤ) = 111 := by
  rw [Int.floor_eq_iff]; norm_num

/-- Concrete ceiling value for the scenario dab. -/
lemma ceil_100_add : (⌈(100 : ℚ) + (10 + 1)⌉ : ℤ) = 111 := by
  rw [Int.ceil_eq_iff]; norm_num

/-- Lowest affected tile index of the scenario dab. -/
lemma scenario_tileIndexLow : tileIndexLow (100 : ℚ) 10 = 1 := by
  unfold tileIndexLow; rw [floor_100_sub, Int.floor_eq_iff]; norm_num

/-- Highest affected tile index of the scenario dab. -/
lemma scenario_tileIndexHigh : tileIndexHigh (100 : ℚ) 10 = 1 := by
  unfold tileIndexHigh; rw [floor_100_add, Int.floor_eq_iff]; norm_num

/-- The dab at `(100,100)` with radius 10 touches only tile `(1,1)`. -/
lemma scenario_tileRange : tileRange (100 : ℚ) 100 10 = [(1, 1)] := by
  unfold tileRange intRange
  rw [scenario_tileIndexLow, scenario_tileIndexHigh]
  norm_num [List.range_succ]

/-- C1 counterexample: the single notification rectangle of the scenario is
`(x=89, y=89, w=22, h=22)`, and that rectangle does not contain the pixel
`(111, 111)` (it reaches only up to `(110, 110)`). -/
theorem scenario_notify_rect_misses_111 :
    scenarioNotification = some ⟨89, 89, 22, 22⟩ ∧
    ¬ rectContains ⟨89, 89, 22, 22⟩ 111 111 := by
  constructor
  · unfold scenarioNotification
    norm_num [draw_dab, scenarioDab, scenario_tileRange, drawTileLoop,
      get_tile_memory, cacheFind, scenarioStore, scenarioW0, begin_atomic,
      initSurface, ExpandRectToIncludePoint, end_atomic]
  · decide

/-- C1 amended: the scenario issues exactly one dirty notification, whose
rectangle `(89, 89, 22, 22)` contains every pixel from `(89, 89)` to
`(110, 110)` inclusive. -/
theorem scenario_notify_once_rect_89_110 :
    scenarioNotification = some ⟨89, 89, 22, 22⟩ ∧
    (∀ px py : Int, 89 ≤ px → px ≤ 110 → 89 ≤ py → py ≤ 110 →
      rectContains ⟨89, 89, 22, 22⟩ px py) := by
  constructor
  · unfold scenarioNotification
    norm_num [draw_dab, scenarioDab, scenario_tileRange, drawTileLoop,
      get_tile_memory, cacheFind, scenarioStore, scenarioW0, begin_atomic,
      initSurface, ExpandRectToIncludePoint, end_atomic]
  · intro px py h1 h2 h3 h4
    unfold rectContains
    refine ⟨h1, ?_, h3, ?_⟩ <;> norm_num <;> omega

/-! Claim C5. -/

/-- Any single `get_tile_memory` call leaves the dirty box and the nesting
counter untouched. -/
lemma get_tile_memory_frame (store : Int → Int → Bool → Option Nat)
    (st : SurfaceState) (tx ty : Int) (ro : Bool) :
    (get_tile_memory store st tx ty ro).state.dirty_bbox = st.dirty_bbox ∧
    (get_tile_memory store st tx ty ro).state.atomic = st.atomic := by
  unfold get_tile_memory
  cases h1 : cacheFind st.tileMemory st.tileMemoryValid tx ty
  · cases h2 : store tx ty ro
    · simp
    · split_ifs <;> simp
  · simp

/-- The tile loop of `draw_dab` never touches the dirty box. -/
lemma drawTileLoop_dirty (store : Int → Int → Bool → Option Nat)
    (d : DabParams) (ts : List (Int × Int)) : ∀ w : World,
    (drawTileLoop store d ts w).1.surf.dirty_bbox = w.surf.dirty_bbox := by
  induction ts with
  | nil => intro w; rfl
  | cons t rest ih =>
    intro w
    rw [drawTileLoop]
    cases h : (get_tile_memory store w.surf t.1 t.2 false).rgba with
    | none =>
      simp only [h]
      exact (get_tile_memory_frame store w.surf t.1 t.2 false).1
    | some ref =>
      simp only [h]
      rw [ih]
      exact (get_tile_memory_frame store w.surf t.1 t.2 false).1

/-- When the store never fails, a fetch always returns a buffer. -/
lemma get_tile_memory_total (store : Int → Int → Bool → Option Nat)
    (st : SurfaceState) (tx ty : Int) (ro : Bool)
    (hs : (store tx ty ro).isSome = true) :
    (get_tile_memory store st tx ty ro).rgba.isSome = true := by
  unfold get_tile_memory
  cases h1 : cacheFind st.tileMemory st.tileMemoryValid tx ty
  · cases h2 : store tx ty ro
    · rw [h2] at hs; simp at hs
    · split_ifs <;> simp
  · simp

/-- When the store never fails, the tile loop runs to completion. -/
lemma drawTileLoop_total (store : Int → Int → Bool → Option Nat)
    (d : DabParams) (ts : List (Int × Int))
    (hs : ∀ tx ty : Int, (store tx ty false).isSome = true) : ∀ w : World,
    (drawTileLoop store d ts w).2 = true := by
  induction ts with
  | nil => intro w; rfl
  | cons t rest ih =>
    intro w
    rw [drawTileLoop]
    cases h : (get_tile_memory store w.surf t.1 t.2 false).rgba with
    | none =>
      have := get_tile_memory_total store w.surf t.1 t.2 false (hs t.1 t.2)
      rw [h] at this; simp at this
    | some ref =>
      simp only [h]
      exact ih _

/-- C5 amended: when the degenerate guards pass, a call during which no
tile fetch fails expands the dirty tracker exactly once with the dab's
bounding rectangle and returns `true`; a call during which a fetch fails
returns `true` with the dirty tracker unchanged (no expansion). -/
theorem draw_dab_dirty_expand_once (store : Int → Int → Bool → Option Nat)
    (w : World) (d : DabParams) (h1 : ¬ d.opaque_ = 0)
    (h2 : ¬ d.radius < 1 / 10) (h3 : ¬ d.hardness = 0) :
    ((∀ tx ty : Int, (store tx ty false).isSome = true) →
      (draw_dab store w d).1 = true ∧
      (draw_dab store w d).2.surf.dirty_bbox =
        ExpandRectToIncludePoint
          (ExpandRectToIncludePoint w.surf.dirty_bbox
            ⌊d.x - (d.radius + 1)⌋ ⌊d.y - (d.radius + 1)⌋)
          (⌊d.x - (d.radius + 1)⌋ + ⌈2 * (d.radius + 1)⌉ - 1)
          (⌊d.y - (d.radius + 1)⌋ + ⌈2 * (d.radius + 1)⌉ - 1)) ∧
    ((drawTileLoop store d (tileRange d.x d.y d.radius) w).2 = false →
      (draw_dab store w d).1 = true ∧
      (draw_dab store w d).2.surf.dirty_bbox = w.surf.dirty_bbox) := by
  constructor
  · intro hs
    have htot := drawTileLoop_total store d (tileRange d.x d.y d.radius) hs w
    have hd := drawTileLoop_dirty store d (tileRange d.x d.y d.radius) w
    unfold draw_dab
    rw [if_neg h1, if_neg h2, if_neg h3]
    simp only [htot, if_true, hd]
    exact ⟨trivial, trivial⟩
  · intro hf
    have hd := drawTileLoop_dirty store d (tileRange d.x d.y d.radius) w
    unfold draw_dab
    rw [if_neg h1, if_neg h2, if_neg h3]
    simp only [hf, if_false, Bool.false_eq_true, hd]
    exact ⟨trivial, trivial⟩

/-- A world with one batch open and an empty dirty region, for the C5
counterexample. -/
def failWorld : World := ⟨{ initSurface with atomic := 1 }, zeroHeap⟩

/-- C5 counterexample: with a store that fails, the scenario dab's
`draw_dab` returns `true` but the dirty tracker is NOT expanded (it stays
empty), refuting "expanded exactly once per call including calls in which a
tile fetch fails". -/
theorem draw_dab_fetch_failure_no_dirty_expand :
    (draw_dab (fun _ _ _ => none) failWorld scenarioDab).1 = true ∧
    (draw_dab (fun _ _ _ => none) failWorld scenarioDab).2.surf.dirty_bbox =
      ⟨0, 0, 0, 0⟩ ∧
    (⟨0, 0, 0, 0⟩ : Rect) ≠
      ExpandRectToIncludePoint
        (ExpandRectToIncludePoint ⟨0, 0, 0, 0⟩ 89 89) 110 110 := by
  refine ⟨?_, ?_, by decide⟩ <;>
    norm_num [draw_dab, scenarioDab, scenario_tileRange, drawTileLoop,
      get_tile_memory, cacheFind, failWorld, initSurface]

/-- Concrete instance of the amended C5, on the scenario dab with a store
that always succeeds. -/
theorem draw_dab_dirty_expand_once_witness :
    (draw_dab scenarioStore failWorld scenarioDab).1 = true ∧
    (draw_dab scenarioStore failWorld scenarioDab).2.surf.dirty_bbox =
      ExpandRectToIncludePoint
        (ExpandRectToIncludePoint failWorld.surf.dirty_bbox
          ⌊scenarioDab.x - (scenarioDab.radius + 1)⌋
          ⌊scenarioDab.y - (scenarioDab.radius + 1)⌋)
        (⌊scenarioDab.x - (scenarioDab.radius + 1)⌋ +
          ⌈2 * (scenarioDab.radius + 1)⌉ - 1)
        (⌊scenarioDab.y - (scenarioDab.radius + 1)⌋ +
          ⌈2 * (scenarioDab.radius + 1)⌉ - 1) :=
  (draw_dab_dirty_expand_once scenarioStore failWorld scenarioDab
    (by norm_num [scenarioDab]) (by norm_num [scenarioDab])
    (by norm_num [scenarioDab])).1 (fun _ _ => rfl)

/-! Claim C7. -/

/-- A well-formed 16-bit premultiplied source tile, per the data model:
channels in `[0, 2^15]` and each color channel at most the alpha channel. -/
def ValidTile16 (src : Int → Pixel) : Prop :=
  ∀ p : Int, 0 ≤ p → p < 64 * 64 →
    (src p).r ≤ (src p).a ∧ (src p).g ≤ (src p).a ∧ (src p).b ≤ (src p).a ∧
    (src p).a ≤ 2 ^ 15

/-- A well-formed 8-bit destination buffer: every channel below 256. -/
def ValidRGB8 (dst : Int → RGB8) : Prop :=
  ∀ p : Int, (dst p).r < 256 ∧ (dst p).g < 256 ∧ (dst p).b < 256

/-- C7: flattening a source tile whose alpha channel is zero at every pixel
onto any 8-bit RGB destination leaves the destination unchanged at every
pixel. -/
theorem flatten_alpha_zero_identity (src : Int → Pixel) (dst : Int → RGB8)
    (hsrc : ValidTile16 src)
    (ha : ∀ p : Int, 0 ≤ p → p < 64 * 64 → (src p).a = 0)
    (hdst : ValidRGB8 dst) :
    composite_tile_over_rgb8 src dst = dst := by
  funext p
  unfold composite_tile_over_rgb8
  split_ifs with hp
  · obtain ⟨hp0, hp1⟩ := hp
    obtain ⟨hr, hg, hb, _⟩ := hsrc p hp0 hp1
    have ha0 := ha p hp0 hp1
    obtain ⟨dr, dg, db⟩ := hdst p
    rw [ha0] at hr hg hb
    simp only [Nat.le_zero] at hr hg hb
    have heta : dst p = ⟨(dst p).r, (dst p).g, (dst p).b⟩ := rfl
    rw [heta]
    simp only [hr, hg, hb, ha0, u32, i2u32, RGB8.mk.injEq]
    norm_num [show ((32768 : ℤ).toNat) = 32768 from rfl]
    refine ⟨?_, ?_, ?_⟩ <;> omega
  · rfl

/-- The all-transparent source tile. -/
def zeroTile : Int → Pixel := fun _ => ⟨0, 0, 0, 0⟩

/-- A constant 8-bit destination buffer. -/
def constDst : Int → RGB8 := fun _ => ⟨10, 20, 30⟩

/-- Concrete instance of C7: flattening the all-transparent tile onto a
constant destination is the identity. -/
theorem flatten_alpha_zero_identity_witness :
    composite_tile_over_rgb8 zeroTile constDst = constDst :=
  flatten_alpha_zero_identity zeroTile constDst
    (fun _ _ _ => by norm_num [zeroTile])
    (fun _ _ _ => rfl)
    (fun _ => by norm_num [constDst])

/-! Claim C10. -/

/-- The double-floor tile mapping equals integer floor division by 64. -/
lemma tileIndexLow_eq_ediv (c radius : ℚ) :
    tileIndexLow c radius = ⌊c - (radius + 1)⌋ / 64 := by
  unfold tileIndexLow
  rw [show ((64 : ℚ)) = ((64 : ℕ) : ℚ) by norm_num]
  exact Rat.floor_intCast_div_natCast _ _

/-- The double-floor tile mapping equals integer floor division by 64. -/
lemma tileIndexHigh_eq_ediv (c radius : ℚ) :
    tileIndexHigh c radius = ⌊c + (radius + 1)⌋ / 64 := by
  unfold tileIndexHigh
  rw [show ((64 : ℚ)) = ((64 : ℕ) : ℚ) by norm_num]
  exact Rat.floor_intCast_div_natCast _ _

/-- The per-tile clipped lower x bound, in terms of the global floor. -/
lemma tileClip_x0_eq (x y radius : ℚ) (tx ty : Int) :
    (tileClip x y radius tx ty).x0 =
      clipLow (⌊x - (radius + 1)⌋ - 64 * tx) := by
  unfold tileClip
  simp only []
  have h : x - tx * 64 - (radius + 1) =
      (x - (radius + 1)) - ((64 * tx : ℤ) : ℚ) := by push_cast; ring
  rw [h, Int.floor_sub_int]

/-- The per-tile clipped upper x bound, in terms of the global ceiling. -/
lemma tileClip_x1_eq (x y radius : ℚ) (tx ty : Int) :
    (tileClip x y radius tx ty).x1 =
      clipHigh (⌈x + (radius + 1)⌉ - 64 * tx) := by
  unfold tileClip
  simp only []
  have h : x - tx * 64 + (radius + 1) =
      (x + (radius + 1)) - ((64 * tx : ℤ) : ℚ) := by push_cast; ring
  rw [h, Int.ceil_sub_int]

/-- The per-tile clipped lower y bound, in terms of the global floor. -/
lemma tileClip_y0_eq (x y radius : ℚ) (tx ty : Int) :
    (tileClip x y radius tx ty).y0 =
      clipLow (⌊y - (radius + 1)⌋ - 64 * ty) := by
  unfold tileClip
  simp only []
  have h : y - ty * 64 - (radius + 1) =
      (y - (radius + 1)) - ((64 * ty : ℤ) : ℚ) := by push_cast; ring
  rw [h, Int.floor_sub_int]

/-- The per-tile clipped upper y bound, in terms of the global ceiling. -/
lemma tileClip_y1_eq (x y radius : ℚ) (tx ty : Int) :
    (tileClip x y radius tx ty).y1 =
      clipHigh (⌈y + (radius + 1)⌉ - 64 * ty) := by
  unfold tileClip
  simp only []
  have h : y - ty * 64 + (radius + 1) =
      (y + (radius + 1)) - ((64 * ty : ℤ) : ℚ) := by push_cast; ring
  rw [h, Int.ceil_sub_int]

/-- C10: for every dab position and radius and every tile in the mapped
tile range, the clipped pixel sub-rectangle lies within `[0, 63]` in both
axes, so every buffer index accessed (`idx` through `idx+3`) is within the
`TILE_SIZE*TILE_SIZE*4`-element tile buffer. -/
theorem clip_rect_in_bounds (x y radius : ℚ) (tx ty : Int)
    (hx1 : tileIndexLow x radius ≤ tx) (hx2 : tx ≤ tileIndexHigh x radius)
    (hy1 : tileIndexLow y radius ≤ ty) (hy2 : ty ≤ tileIndexHigh y radius) :
    (0 ≤ (tileClip x y radius tx ty).x0 ∧
     (tileClip x y radius tx ty).x0 ≤ 63 ∧
     0 ≤ (tileClip x y radius tx ty).y0 ∧
     (tileClip x y radius tx ty).y0 ≤ 63 ∧
     0 ≤ (tileClip x y radius tx ty).x1 ∧
     (tileClip x y radius tx ty).x1 ≤ 63 ∧
     0 ≤ (tileClip x y radius tx ty).y1 ∧
     (tileClip x y radius tx ty).y1 ≤ 63) ∧
    (∀ yp xp : Int,
      (tileClip x y radius tx ty).y0 ≤ yp →
      yp ≤ (tileClip x y radius tx ty).y1 →
      (tileClip x y radius tx ty).x0 ≤ xp →
      xp ≤ (tileClip x y radius tx ty).x1 →
      0 ≤ pixelIdx yp xp ∧ pixelIdx yp xp + 3 < 64 * 64 * 4) := by
  rw [tileIndexLow_eq_ediv] at hx1 hy1
  rw [tileIndexHigh_eq_ediv] at hx2 hy2
  have hbx : ⌊x + (radius + 1)⌋ ≤ ⌈x + (radius + 1)⌉ := Int.floor_le_ceil _
  have hby : ⌊y + (radius + 1)⌋ ≤ ⌈y + (radius + 1)⌉ := Int.floor_le_ceil _
  rw [tileClip_x0_eq, tileClip_x1_eq, tileClip_y0_eq, tileClip_y1_eq]
  unfold clipLow clipHigh
  constructor
  · split_ifs <;> omega
  · intro yp xp h1 h2 h3 h4
    unfold pixelIdx
    split_ifs at h1 h2 h3 h4 <;> omega

/-- Concrete instance of C10 at the scenario dab on tile `(1,1)`, including
the corner pixel `(47, 47)` of its clipped sub-rectangle. -/
theorem clip_rect_in_bounds_witness :
    (0 ≤ (tileClip 100 100 10 1 1).x0 ∧
     (tileClip 100 100 10 1 1).x0 ≤ 63 ∧
     0 ≤ (tileClip 100 100 10 1 1).y0 ∧
     (tileClip 100 100 10 1 1).y0 ≤ 63 ∧
     0 ≤ (tileClip 100 100 10 1 1).x1 ∧
     (tileClip 100 100 10 1 1).x1 ≤ 63 ∧
     0 ≤ (tileClip 100 100 10 1 1).y1 ∧
     (tileClip 100 100 10 1 1).y1 ≤ 63) ∧
    (0 ≤ pixelIdx 47 47 ∧ pixelIdx 47 47 + 3 < 64 * 64 * 4) := by
  have hc0 : (tileClip (100 : ℚ) 100 10 1 1).x0 = 25 := by
    rw [tileClip_x0_eq, floor_100_sub]; decide
  have hc1 : (tileClip (100 : ℚ) 100 10 1 1).x1 = 47 := by
    rw [tileClip_x1_eq, ceil_100_add]; decide
  have hc2 : (tileClip (100 : ℚ) 100 10 1 1).y0 = 25 := by
    rw [tileClip_y0_eq, floor_100_sub]; decide
  have hc3 : (tileClip (100 : ℚ) 100 10 1 1).y1 = 47 := by
    rw [tileClip_y1_eq, ceil_100_add]; decide
  have h := clip_rect_in_bounds 100 100 10 1 1
    (le_of_eq scenario_tileIndexLow) (ge_of_eq scenario_tileIndexHigh)
    (le_of_eq scenario_tileIndexLow) (ge_of_eq scenario_tileIndexHigh)
  refine ⟨h.1, h.2 47 47 ?_ ?_ ?_ ?_⟩ <;>
    simp only [hc0, hc1, hc2, hc3] <;> decide

/-! Claim C2. -/

/-- Folding a sequence of write-mode tile fetches through the cache. -/
def fetchSeq (store : Int → Int → Bool → Option Nat)
    (ts : List (Int × Int)) (st : SurfaceState) : SurfaceState :=
  ts.foldl (fun s u => (get_tile_memory store s u.1 u.2 false).state) st

/-- A fetch never grows the valid count beyond `TILE_MEMORY_SIZE`. -/
lemma get_tile_memory_capacity (store : Int → Int → Bool → Option Nat)
    (st : SurfaceState) (tx ty : Int) (ro : Bool)
    (h : st.tileMemoryValid ≤ 8) :
    (get_tile_memory store st tx ty ro).state.tileMemoryValid ≤ 8 := by
  unfold get_tile_memory TILE_MEMORY_SIZE
  cases h1 : cacheFind st.tileMemory st.tileMemoryValid tx ty
  · cases h2 : store tx ty ro
    · simpa using h
    · split_ifs with h3 h4 <;> simp <;> omega
  · simpa using h

/-- A write-mode fetch that misses the cache and succeeds at the store
inserts the tile at the round-robin write position. -/
lemma get_tile_memory_miss_insert (store : Int → Int → Bool → Option Nat)
    (st : SurfaceState) (tx ty : Int) (ref : Nat)
    (hmiss : cacheFind st.tileMemory st.tileMemoryValid tx ty = none)
    (hs : store tx ty false = some ref) :
    get_tile_memory store st tx ty false =
      ⟨some ref,
       { st with
         tileMemory := Function.update st.tileMemory st.tileMemoryWrite
           ⟨tx, ty, ref⟩
         tileMemoryValid :=
           if st.tileMemoryValid < 8 then st.tileMemoryValid + 1
           else st.tileMemoryValid
         tileMemoryWrite := (st.tileMemoryWrite + 1) % 8 },
       true⟩ := by
  unfold get_tile_memory TILE_MEMORY_SIZE
  rw [hmiss, hs]
  rfl

/-- C2: the cache never holds more than 8 valid entries; and after 9
write-mode fetches of pairwise-distinct tiles within one batch (from a
fresh cache), the first-fetched tile has been evicted by the round-robin
write position, so fetching it again misses the cache and calls the
external store. -/
theorem cache_capacity_and_roundrobin_eviction
    (store : Int → Int → Bool → Option Nat) (st0 : SurfaceState)
    (t : Fin 9 → Int × Int) (hinj : Function.Injective t)
    (hstore : ∀ tx ty : Int, (store tx ty false).isSome = true)
    (hv : st0.tileMemoryValid = 0) (hw : st0.tileMemoryWrite = 0) :
    (∀ (st : SurfaceState) (tx ty : Int) (ro : Bool),
      st.tileMemoryValid ≤ 8 →
      (get_tile_memory store st tx ty ro).state.tileMemoryValid ≤ 8) ∧
    (cacheFind
       (fetchSeq store [t 0, t 1, t 2, t 3, t 4, t 5, t 6, t 7, t 8]
         st0).tileMemory
       (fetchSeq store [t 0, t 1, t 2, t 3, t 4, t 5, t 6, t 7, t 8]
         st0).tileMemoryValid (t 0).1 (t 0).2 = none ∧
     (get_tile_memory store
       (fetchSeq store [t 0, t 1, t 2, t 3, t 4, t 5, t 6, t 7, t 8] st0)
       (t 0).1 (t 0).2 false).storeCalled = true) := by
  have hne : ∀ j k : Fin 9, j ≠ k →
      ¬((t j).1 = (t k).1 ∧ (t j).2 = (t k).2) :=
    fun j k hjk hc => hjk (hinj (Prod.ext_iff.mpr hc))
  obtain ⟨r0, hr0⟩ := Option.isSome_iff_exists.mp (hstore (t 0).1 (t 0).2)
  obtain ⟨r1, hr1⟩ := Option.isSome_iff_exists.mp (hstore (t 1).1 (t 1).2)
  obtain ⟨r2, hr2⟩ := Option.isSome_iff_exists.mp (hstore (t 2).1 (t 2).2)
  obtain ⟨r3, hr3⟩ := Option.isSome_iff_exists.mp (hstore (t 3).1 (t 3).2)
  obtain ⟨r4, hr4⟩ := Option.isSome_iff_exists.mp (hstore (t 4).1 (t 4).2)
  obtain ⟨r5, hr5⟩ := Option.isSome_iff_exists.mp (hstore (t 5).1 (t 5).2)
  obtain ⟨r6, hr6⟩ := Option.isSome_iff_exists.mp (hstore (t 6).1 (t 6).2)
  obtain ⟨r7, hr7⟩ := Option.isSome_iff_exists.mp (hstore (t 7).1 (t 7).2)
  obtain ⟨r8, hr8⟩ := Option.isSome_iff_exists.mp (hstore (t 8).1 (t 8).2)
  have hd01 := hne 0 1 (by decide)
  have hd02 := hne 0 2 (by decide)
  have hd12 := hne 1 2 (by decide)
  have hd03 := hne 0 3 (by decide)
  have hd13 := hne 1 3 (by decide)
  have hd23 := hne 2 3 (by decide)
  have hd04 := hne 0 4 (by decide)
  have hd14 := hne 1 4 (by decide)
  have hd24 := hne 2 4 (by decide)
  have hd34 := hne 3 4 (by decide)
  have hd05 := hne 0 5 (by decide)
  have hd15 := hne 1 5 (by decide)
  have hd25 := hne 2 5 (by decide)
  have hd35 := hne 3 5 (by decide)
  have hd45 := hne 4 5 (by decide)
  have hd06 := hne 0 6 (by decide)
  have hd16 := hne 1 6 (by decide)
  have hd26 := hne 2 6 (by decide)
  have hd36 := hne 3 6 (by decide)
  have hd46 := hne 4 6 (by decide)
  have hd56 := hne 5 6 (by decide)
  have hd07 := hne 0 7 (by decide)
  have hd17 := hne 1 7 (by decide)
  have hd27 := hne 2 7 (by decide)
  have hd37 := hne 3 7 (by decide)
  have hd47 := hne 4 7 (by decide)
  have hd57 := hne 5 7 (by decide)
  have hd67 := hne 6 7 (by decide)
  have hd08 := hne 0 8 (by decide)
  have hd18 := hne 1 8 (by decide)
  have hd28 := hne 2 8 (by decide)
  have hd38 := hne 3 8 (by decide)
  have hd48 := hne 4 8 (by decide)
  have hd58 := hne 5 8 (by decide)
  have hd68 := hne 6 8 (by decide)
  have hd78 := hne 7 8 (by decide)
  have hd10 := hne 1 0 (by decide)
  have hd20 := hne 2 0 (by decide)
  have hd30 := hne 3 0 (by decide)
  have hd40 := hne 4 0 (by decide)
  have hd50 := hne 5 0 (by decide)
  have hd60 := hne 6 0 (by decide)
  have hd70 := hne 7 0 (by decide)
  have hd80 := hne 8 0 (by decide)
  have hM0 : cacheFind (st0.tileMemory) 0 (t 0).1 (t 0).2 = none := by
    simp [cacheFind]
  have he0 : (get_tile_memory store st0 (t 0).1 (t 0).2
      false).state = (⟨st0.dirty_bbox, st0.atomic,
        Function.update (st0.tileMemory) 0 ⟨(t 0).1, (t 0).2, r0⟩,
        1, 1⟩ : SurfaceState) := by
    rw [get_tile_memory_miss_insert store st0 (t 0).1 (t 0).2 r0
      (by rw [hv]; exact hM0) hr0]
    simp [hv, hw]
  have hM1 : cacheFind (Function.update (st0.tileMemory) 0 ⟨(t 0).1, (t 0).2, r0⟩) 1 (t 1).1 (t 1).2 = none := by
    simp [cacheFind, show List.range 1 = [0] from rfl,
      List.findSome?, Function.update, hd01]
  have he1 : (get_tile_memory store (⟨st0.dirty_bbox, st0.atomic,
        Function.update (st0.tileMemory) 0 ⟨(t 0).1, (t 0).2, r0⟩,
        1, 1⟩ : SurfaceState) (t 1).1 (t 1).2
      false).state = (⟨st0.dirty_bbox, st0.atomic,
        Function.update (Function.update (st0.tileMemory) 0 ⟨(t 0).1, (t 0).2, r0⟩) 1 ⟨(t 1).1, (t 1).2, r1⟩,
        2, 2⟩ : SurfaceState) := by
    rw [get_tile_memory_miss_insert store _ (t 1).1 (t 1).2 r1 hM1 hr1]
    simp
  have hM2 : cacheFind (Function.update (Function.update (st0.tileMemory) 0 ⟨(t 0).1, (t 0).2, r0⟩) 1 ⟨(t 1).1, (t 1).2, r1⟩) 2 (t 2).1 (t 2).2 = none := by
    simp [cacheFind, show List.range 2 = [0, 1] from rfl,
      List.findSome?, Function.update, hd02, hd12]
  have he2 : (get_tile_memory store (⟨st0.dirty_bbox, st0.atomic,
        Function.update (Function.update (st0.tileMemory) 0 ⟨(t 0).1, (t 0).2, r0⟩) 1 ⟨(t 1).1, (t 1).2, r1⟩,
        2, 2⟩ : SurfaceState) (t 2).1 (t 2).2
      false).state = (⟨st0.dirty_bbox, st0.atomic,
        Function.update (Function.update (Function.update (st0.tileMemory) 0 ⟨(t 0).1, (t 0).2, r0⟩) 1 ⟨(t 1).1, (t 1).2, r1⟩) 2 ⟨(t 2).1, (t 2).2, r2⟩,
        3, 3⟩ : SurfaceState) := by
    rw [get_tile_memory_miss_insert store _ (t 2).1 (t 2).2 r2 hM2 hr2]
    simp
  have hM3 : cacheFind (Function.update (Function.update (Function.update (st0.tileMemory) 0 ⟨(t 0).1, (t 0).2, r0⟩) 1 ⟨(t 1).1, (t 1).2, r1⟩) 2 ⟨(t 2).1, (t 2).2, r2⟩) 3 (t 3).1 (t 3).2 = none := by
    simp [cacheFind, show List.range 3 = [0, 1, 2] from rfl,
      List.findSome?, Function.update, hd03, hd13, hd23]
  have he3 : (get_tile_memory store (⟨st0.dirty_bbox, st0.atomic,
        Function.update (Function.update (Function.update (st0.tileMemory) 0 ⟨(t 0).1, (t 0).2, r0⟩) 1 ⟨(t 1).1, (t 1).2, r1⟩) 2 ⟨(t 2).1, (t 2).2, r2⟩,
        3, 3⟩ : SurfaceState) (t 3).1 (t 3).2
      false).state = (⟨st0.dirty_bbox, st0.atomic,
        Function.update (Function.update (Function.update (Function.update (st0.tileMemory) 0 ⟨(t 0).1, (t 0).2, r0⟩) 1 ⟨(t 1).1, (t 1).2, r1⟩) 2 ⟨(t 2).1, (t 2).2, r2⟩) 3 ⟨(t 3).1, (t 3).2, r3⟩,
        4, 4⟩ : SurfaceState) := by
    rw [get_tile_memory_miss_insert store _ (t 3).1 (t 3).2 r3 hM3 hr3]
    simp
  have hM4 : cacheFind (Function.update (Function.update (Function.update (Function.update (st0.tileMemory) 0 ⟨(t 0).1, (t 0).2, r0⟩) 1 ⟨(t 1).1, (t 1).2, r1⟩) 2 ⟨(t 2).1, (t 2).2, r2⟩) 3 ⟨(t 3).1, (t 3).2, r3⟩) 4 (t 4).1 (t 4).2 = none := by
    simp [cacheFind, show List.range 4 = [0, 1, 2, 3] from rfl,
      List.findSome?, Function.update, hd04, hd14, hd24, hd34]
  have he4 : (get_tile_memory store (⟨st0.dirty_bbox, st0.atomic,
        Function.update (Function.update (Function.update (Function.update (st0.tileMemory) 0 ⟨(t 0).1, (t 0).2, r0⟩) 1 ⟨(t 1).1, (t 1).2, r1⟩) 2 ⟨(t 2).1, (t 2).2, r2⟩) 3 ⟨(t 3).1, (t 3).2, r3⟩,
        4, 4⟩ : SurfaceState) (t 4).1 (t 4).2
      false).state = (⟨st0.dirty_bbox, st0.atomic,
        Function.update (Function.update (Function.update (Function.update (Function.update (st0.tileMemory) 0 ⟨(t 0).1, (t 0).2, r0⟩) 1 ⟨(t 1).1, (t 1).2, r1⟩) 2 ⟨(t 2).1, (t 2).2, r2⟩) 3 ⟨(t 3).1, (t 3).2, r3⟩) 4 ⟨(t 4).1, (t 4).2, r4⟩,
        5, 5⟩ : SurfaceState) := by
    rw [get_tile_memory_miss_insert store _ (t 4).1 (t 4).2 r4 hM4 hr4]
    simp
  have hM5 : cacheFind (Function.update (Function.update (Function.update (Function.update (Function.update (st0.tileMemory) 0 ⟨(t 0).1, (t 0).2, r0⟩) 1 ⟨(t 1).1, (t 1).2, r1⟩) 2 ⟨(t 2).1, (t 2).2, r2⟩) 3 ⟨(t 3).1, (t 3).2, r3⟩) 4 ⟨(t 4).1, (t 4).2, r4⟩) 5 (t 5).1 (t 5).2 = none := by
    simp [cacheFind, show List.range 5 = [0, 1, 2, 3, 4] from rfl,
      List.findSome?, Function.update, hd05, hd15, hd25, hd35, hd45]
  have he5 : (get_tile_memory store (⟨st0.dirty_bbox, st0.atomic,
        Function.update (Function.update (Function.update (Function.update (Function.update (st0.tileMemory) 0 ⟨(t 0).1, (t 0).2, r0⟩) 1 ⟨(t 1).1, (t 1).2, r1⟩) 2 ⟨(t 2).1, (t 2).2, r2⟩) 3 ⟨(t 3).1, (t 3).2, r3⟩) 4 ⟨(t 4).1, (t 4).2, r4⟩,
        5, 5⟩ : SurfaceState) (t 5).1 (t 5).2
      false).state = (⟨st0.dirty_bbox, st0.atomic,
        Function.update (Function.update (Function.update (Function.update (Function.update (Function.update (st0.tileMemory) 0 ⟨(t 0).1, (t 0).2, r0⟩) 1 ⟨(t 1).1, (t 1).2, r1⟩) 2 ⟨(t 2).1, (t 2).2, r2⟩) 3 ⟨(t 3).1, (t 3).2, r3⟩) 4 ⟨(t 4).1, (t 4).2, r4⟩) 5 ⟨(t 5).1, (t 5).2, r5⟩,
        6, 6⟩ : SurfaceState) := by
    rw [get_tile_memory_miss_insert store _ (t 5).1 (t 5).2 r5 hM5 hr5]
    simp
  have hM6 : cacheFind (Function.update (Function.update (Function.update (Function.update (Function.update (Function.update (st0.tileMemory) 0 ⟨(t 0).1, (t 0).2, r0⟩) 1 ⟨(t 1).1, (t 1).2, r1⟩) 2 ⟨(t 2).1, (t 2).2, r2⟩) 3 ⟨(t 3).1, (t 3).2, r3⟩) 4 ⟨(t 4).1, (t 4).2, r4⟩) 5 ⟨(t 5).1, (t 5).2, r5⟩) 6 (t 6).1 (t 6).2 = none := by
    simp [cacheFind, show List.range 6 = [0, 1, 2, 3, 4, 5] from rfl,
      List.findSome?, Function.update, hd06, hd16, hd26, hd36, hd46, hd56]
  have he6 : (get_tile_memory store (⟨st0.dirty_bbox, st0.atomic,
        Function.update (Function.update (Function.update (Function.update (Function.update (Function.update (st0.tileMemory) 0 ⟨(t 0).1, (t 0).2, r0⟩) 1 ⟨(t 1).1, (t 1).2, r1⟩) 2 ⟨(t 2).1, (t 2).2, r2⟩) 3 ⟨(t 3).1, (t 3).2, r3⟩) 4 ⟨(t 4).1, (t 4).2, r4⟩) 5 ⟨(t 5).1, (t 5).2, r5⟩,
        6, 6⟩ : SurfaceState) (t 6).1 (t 6).2
      false).state = (⟨st0.dirty_bbox, st0.atomic,
        Function.update (Function.update (Function.update (Function.update (Function.update (Function.update (Function.update (st0.tileMemory) 0 ⟨(t 0).1, (t 0).2, r0⟩) 1 ⟨(t 1).1, (t 1).2, r1⟩) 2 ⟨(t 2).1, (t 2).2, r2⟩) 3 ⟨(t 3).1, (t 3).2, r3⟩) 4 ⟨(t 4).1, (t 4).2, r4⟩) 5 ⟨(t 5).1, (t 5).2, r5⟩) 6 ⟨(t 6).1, (t 6).2, r6⟩,
        7, 7⟩ : SurfaceState) := by
    rw [get_tile_memory_miss_insert store _ (t 6).1 (t 6).2 r6 hM6 hr6]
    simp
  have hM7 : cacheFind (Function.update (Function.update (Function.update (Function.update (Function.update (Function.update (Function.update (st0.tileMemory) 0 ⟨(t 0).1, (t 0).2, r0⟩) 1 ⟨(t 1).1, (t 1).2, r1⟩) 2 ⟨(t 2).1, (t 2).2, r2⟩) 3 ⟨(t 3).1, (t 3).2, r3⟩) 4 ⟨(t 4).1, (t 4).2, r4⟩) 5 ⟨(t 5).1, (t 5).2, r5⟩) 6 ⟨(t 6).1, (t 6).2, r6⟩) 7 (t 7).1 (t 7).2 = none := by
    simp [cacheFind, show List.range 7 = [0, 1, 2, 3, 4, 5, 6] from rfl,
      List.findSome?, Function.update, hd07, hd17, hd27, hd37, hd47, hd57, hd67]
  have he7 : (get_tile_memory store (⟨st0.dirty_bbox, st0.atomic,
        Function.update (Function.update (Function.update (Function.update (Function.update (Function.update (Function.update (st0.tileMemory) 0 ⟨(t 0).1, (t 0).2, r0⟩) 1 ⟨(t 1).1, (t 1).2, r1⟩) 2 ⟨(t 2).1, (t 2).2, r2⟩) 3 ⟨(t 3).1, (t 3).2, r3⟩) 4 ⟨(t 4).1, (t 4).2, r4⟩) 5 ⟨(t 5).1, (t 5).2, r5⟩) 6 ⟨(t 6).1, (t 6).2, r6⟩,
        7, 7⟩ : SurfaceState) (t 7).1 (t 7).2
      false).state = (⟨st0.dirty_bbox, st0.atomic,
        Function.update (Function.update (Function.update (Function.update (Function.update (Function.update (Function.update (Function.update (st0.tileMemory) 0 ⟨(t 0).1, (t 0).2, r0⟩) 1 ⟨(t 1).1, (t 1).2, r1⟩) 2 ⟨(t 2).1, (t 2).2, r2⟩) 3 ⟨(t 3).1, (t 3).2, r3⟩) 4 ⟨(t 4).1, (t 4).2, r4⟩) 5 ⟨(t 5).1, (t 5).2, r5⟩) 6 ⟨(t 6).1, (t 6).2, r6⟩) 7 ⟨(t 7).1, (t 7).2, r7⟩,
        8, 0⟩ : SurfaceState) := by
    rw [get_tile_memory_miss_insert store _ (t 7).1 (t 7).2 r7 hM7 hr7]
    simp
  have hM8 : cacheFind (Function.update (Function.update (Function.update (Function.update (Function.update (Function.update (Function.update (Function.update (st0.tileMemory) 0 ⟨(t 0).1, (t 0).2, r0⟩) 1 ⟨(t 1).1, (t 1).2, r1⟩) 2 ⟨(t 2).1, (t 2).2, r2⟩) 3 ⟨(t 3).1, (t 3).2, r3⟩) 4 ⟨(t 4).1, (t 4).2, r4⟩) 5 ⟨(t 5).1, (t 5).2, r5⟩) 6 ⟨(t 6).1, (t 6).2, r6⟩) 7 ⟨(t 7).1, (t 7).2, r7⟩) 8 (t 8).1 (t 8).2 = none := by
    simp [cacheFind, show List.range 8 = [0, 1, 2, 3, 4, 5, 6, 7] from rfl,
      List.findSome?, Function.update, hd08, hd18, hd28, hd38, hd48, hd58, hd68, hd78]
  have he8 : (get_tile_memory store (⟨st0.dirty_bbox, st0.atomic,
        Function.update (Function.update (Function.update (Function.update (Function.update (Function.update (Function.update (Function.update (st0.tileMemory) 0 ⟨(t 0).1, (t 0).2, r0⟩) 1 ⟨(t 1).1, (t 1).2, r1⟩) 2 ⟨(t 2).1, (t 2).2, r2⟩) 3 ⟨(t 3).1, (t 3).2, r3⟩) 4 ⟨(t 4).1, (t 4).2, r4⟩) 5 ⟨(t 5).1, (t 5).2, r5⟩) 6 ⟨(t 6).1, (t 6).2, r6⟩) 7 ⟨(t 7).1, (t 7).2, r7⟩,
        8, 0⟩ : SurfaceState) (t 8).1 (t 8).2
      false).state = (⟨st0.dirty_bbox, st0.atomic,
        Function.update (Function.update (Function.update (Function.update (Function.update (Function.update (Function.update (Function.update (Function.update (st0.tileMemory) 0 ⟨(t 0).1, (t 0).2, r0⟩) 1 ⟨(t 1).1, (t 1).2, r1⟩) 2 ⟨(t 2).1, (t 2).2, r2⟩) 3 ⟨(t 3).1, (t 3).2, r3⟩) 4 ⟨(t 4).1, (t 4).2, r4⟩) 5 ⟨(t 5).1, (t 5).2, r5⟩) 6 ⟨(t 6).1, (t 6).2, r6⟩) 7 ⟨(t 7).1, (t 7).2, r7⟩) 0 ⟨(t 8).1, (t 8).2, r8⟩,
        8, 1⟩ : SurfaceState) := by
    rw [get_tile_memory_miss_insert store _ (t 8).1 (t 8).2 r8 hM8 hr8]
    simp
  have efold : fetchSeq store [t 0, t 1, t 2, t 3, t 4, t 5, t 6, t 7, t 8]
      st0 = (⟨st0.dirty_bbox, st0.atomic,
        Function.update (Function.update (Function.update (Function.update (Function.update (Function.update (Function.update (Function.update (Function.update (st0.tileMemory) 0 ⟨(t 0).1, (t 0).2, r0⟩) 1 ⟨(t 1).1, (t 1).2, r1⟩) 2 ⟨(t 2).1, (t 2).2, r2⟩) 3 ⟨(t 3).1, (t 3).2, r3⟩) 4 ⟨(t 4).1, (t 4).2, r4⟩) 5 ⟨(t 5).1, (t 5).2, r5⟩) 6 ⟨(t 6).1, (t 6).2, r6⟩) 7 ⟨(t 7).1, (t 7).2, r7⟩) 0 ⟨(t 8).1, (t 8).2, r8⟩,
        8, 1⟩ : SurfaceState) := by
    simp only [fetchSeq, List.foldl, he0, he1, he2, he3, he4, he5, he6,
      he7, he8]
  refine ⟨fun st tx ty ro h => get_tile_memory_capacity store st tx ty ro h,
    ?_, ?_⟩
  · rw [efold]
    simp [cacheFind, show List.range 8 = [0, 1, 2, 3, 4, 5, 6, 7] from rfl,
      List.findSome?, Function.update, hd80, hd10, hd20, hd30, hd40, hd50, hd60, hd70]
  · rw [efold]
    unfold get_tile_memory
    have hM9 : cacheFind
        (Function.update (Function.update (Function.update (Function.update (Function.update (Function.update (Function.update (Function.update (Function.update (st0.tileMemory) 0 ⟨(t 0).1, (t 0).2, r0⟩) 1 ⟨(t 1).1, (t 1).2, r1⟩) 2 ⟨(t 2).1, (t 2).2, r2⟩) 3 ⟨(t 3).1, (t 3).2, r3⟩) 4 ⟨(t 4).1, (t 4).2, r4⟩) 5 ⟨(t 5).1, (t 5).2, r5⟩) 6 ⟨(t 6).1, (t 6).2, r6⟩) 7 ⟨(t 7).1, (t 7).2, r7⟩) 0 ⟨(t 8).1, (t 8).2, r8⟩) 8 (t 0).1 (t 0).2 = none := by
      simp [cacheFind, show List.range 8 = [0, 1, 2, 3, 4, 5, 6, 7] from rfl,
        List.findSome?, Function.update, hd80, hd10, hd20, hd30, hd40, hd50, hd60, hd70]
    rw [show (⟨st0.dirty_bbox, st0.atomic,
        Function.update (Function.update (Function.update (Function.update (Function.update (Function.update (Function.update (Function.update (Function.update (st0.tileMemory) 0 ⟨(t 0).1, (t 0).2, r0⟩) 1 ⟨(t 1).1, (t 1).2, r1⟩) 2 ⟨(t 2).1, (t 2).2, r2⟩) 3 ⟨(t 3).1, (t 3).2, r3⟩) 4 ⟨(t 4).1, (t 4).2, r4⟩) 5 ⟨(t 5).1, (t 5).2, r5⟩) 6 ⟨(t 6).1, (t 6).2, r6⟩) 7 ⟨(t 7).1, (t 7).2, r7⟩) 0 ⟨(t 8).1, (t 8).2, r8⟩,
        8, 1⟩ : SurfaceState).tileMemory =
      Function.update (Function.update (Function.update (Function.update (Function.update (Function.update (Function.update (Function.update (Function.update (st0.tileMemory) 0 ⟨(t 0).1, (t 0).2, r0⟩) 1 ⟨(t 1).1, (t 1).2, r1⟩) 2 ⟨(t 2).1, (t 2).2, r2⟩) 3 ⟨(t 3).1, (t 3).2, r3⟩) 4 ⟨(t 4).1, (t 4).2, r4⟩) 5 ⟨(t 5).1, (t 5).2, r5⟩) 6 ⟨(t 6).1, (t 6).2, r6⟩) 7 ⟨(t 7).1, (t 7).2, r7⟩) 0 ⟨(t 8).1, (t 8).2, r8⟩ from rfl]
    rw [show (⟨st0.dirty_bbox, st0.atomic,
        Function.update (Function.update (Function.update (Function.update (Function.update (Function.update (Function.update (Function.update (Function.update (st0.tileMemory) 0 ⟨(t 0).1, (t 0).2, r0⟩) 1 ⟨(t 1).1, (t 1).2, r1⟩) 2 ⟨(t 2).1, (t 2).2, r2⟩) 3 ⟨(t 3).1, (t 3).2, r3⟩) 4 ⟨(t 4).1, (t 4).2, r4⟩) 5 ⟨(t 5).1, (t 5).2, r5⟩) 6 ⟨(t 6).1, (t 6).2, r6⟩) 7 ⟨(t 7).1, (t 7).2, r7⟩) 0 ⟨(t 8).1, (t 8).2, r8⟩,
        8, 1⟩ : SurfaceState).tileMemoryValid = 8 from rfl]
    rw [hM9, hr0]
    rfl


/-- Nine pairwise-distinct tiles along the x axis. -/
def witnessTiles : Fin 9 → Int × Int := fun i => ((i.val : Int), 0)

/-- Concrete instance of C2: fetching tiles `(0,0) .. (8,0)` from a fresh
cache evicts `(0,0)`, and a fresh fetch of it calls the store again. -/
theorem cache_capacity_and_roundrobin_eviction_witness :
    (get_tile_memory (fun _ _ _ => some 0) initSurface 3 4
      false).state.tileMemoryValid ≤ 8 ∧
    cacheFind
      (fetchSeq (fun _ _ _ => some 0)
        [witnessTiles 0, witnessTiles 1, witnessTiles 2, witnessTiles 3,
         witnessTiles 4, witnessTiles 5, witnessTiles 6, witnessTiles 7,
         witnessTiles 8] initSurface).tileMemory
      (fetchSeq (fun _ _ _ => some 0)
        [witnessTiles 0, witnessTiles 1, witnessTiles 2, witnessTiles 3,
         witnessTiles 4, witnessTiles 5, witnessTiles 6, witnessTiles 7,
         witnessTiles 8] initSurface).tileMemoryValid
      (witnessTiles 0).1 (witnessTiles 0).2 = none ∧
    (get_tile_memory (fun _ _ _ => some 0)
      (fetchSeq (fun _ _ _ => some 0)
        [witnessTiles 0, witnessTiles 1, witnessTiles 2, witnessTiles 3,
         witnessTiles 4, witnessTiles 5, witnessTiles 6, witnessTiles 7,
         witnessTiles 8] initSurface)
      (witnessTiles 0).1 (witnessTiles 0).2 false).storeCalled = true := by
  have hinj : Function.Injective witnessTiles := by
    intro a b hab
    have h2 : ((a.val : Int), (0 : Int)) = ((b.val : Int), 0) := hab
    have h3 : (a.val : Int) = (b.val : Int) := congrArg Prod.fst h2
    have h4 : a.val = b.val := by exact_mod_cast h3
    exact Fin.ext h4
  have h := cache_capacity_and_roundrobin_eviction (fun _ _ _ => some 0)
    initSurface witnessTiles hinj (fun _ _ => rfl) rfl rfl
  exact ⟨h.1 initSurface 3 4 false (by decide), h.2.1, h.2.2⟩

/-! Claim C9. -/

/-- A pixel satisfying the data-model invariant: all channels in
`[0, 2^15]` and each color channel at most the alpha channel
(premultiplied). -/
def ValidPixel (p : Pixel) : Prop :=
  p.r ≤ 2 ^ 15 ∧ p.g ≤ 2 ^ 15 ∧ p.b ≤ 2 ^ 15 ∧ p.a ≤ 2 ^ 15 ∧
  p.r ≤ p.a ∧ p.g ≤ p.a ∧ p.b ≤ p.a

/-- A tile buffer all of whose pixels satisfy the invariant. -/
def ValidBuf (buf : Int → Pixel) : Prop := ∀ q : Int, ValidPixel (buf q)

/-- A heap all of whose tile buffers satisfy the invariant. -/
def ValidHeap (heap : Nat → Int → Pixel) : Prop := ∀ ref, ValidBuf (heap ref)

/-- For `opa <= 1` the raw fixed-point top alpha is at most `2^15`. -/
lemma opaFixed_le (opa : ℚ) (h1 : opa ≤ 1) : opaFixed opa ≤ 2 ^ 15 := by
  unfold opaFixed f2u32
  have h : (⌊(2 : ℚ) ^ 15 * opa⌋ : ℤ) ≤ 2 ^ 15 := by
    calc (⌊(2 : ℚ) ^ 15 * opa⌋ : ℤ) ≤ ⌊((2 ^ 15 : ℤ) : ℚ)⌋ :=
      Int.floor_le_floor (by push_cast; nlinarith)
    _ = 2 ^ 15 := Int.floor_intCast _
  omega

/-- The `uint32_t` subtraction `(1<<15) - opa_a` does not wrap when
`opa <= 1`. -/
lemma opaBottom_eq (opa : ℚ) (h1 : opa ≤ 1) :
    opaBottom opa = 2 ^ 15 - opaFixed opa := by
  have h := opaFixed_le opa h1
  unfold opaBottom i2u32
  omega

/-- The eraser scaling can only decrease the top alpha. -/
lemma opaTop_le (opa eraser : ℚ) (he0 : 0 ≤ eraser) (he1 : eraser ≤ 1) :
    opaTop opa eraser ≤ opaFixed opa := by
  unfold opaTop f2u32
  have hc : (0 : ℚ) ≤ (opaFixed opa : ℚ) := by positivity
  have h1 : (opaFixed opa : ℚ) * eraser ≤ (opaFixed opa : ℚ) := by nlinarith
  have h : (⌊(opaFixed opa : ℚ) * eraser⌋ : ℤ) ≤ (opaFixed opa : ℤ) := by
    have h2 := Int.floor_le_floor h1
    rwa [Int.floor_natCast] at h2
  omega

/-- A color channel in `[0, 1]` converts to at most `2^15`. -/
lemma dabColor_le (c : ℚ) (h1 : c ≤ 1) : dabColor c ≤ 2 ^ 15 := by
  unfold dabColor f2u32
  have h : (⌊c * 2 ^ 15⌋ : ℤ) ≤ 2 ^ 15 := by
    calc (⌊c * 2 ^ 15⌋ : ℤ) ≤ ⌊((2 ^ 15 : ℤ) : ℚ)⌋ :=
      Int.floor_le_floor (by push_cast; nlinarith)
    _ = 2 ^ 15 := Int.floor_intCast _
  omega

/-- The per-pixel composite preserves the channel-range and premultiplied
invariants (all truncations are identities and the result channels stay in
range, with each color channel at most the new alpha). -/
lemma composePixel_valid (opa eraser : ℚ) (cr cg cb : Nat) (p : Pixel)
    (ho1 : opa ≤ 1) (he0 : 0 ≤ eraser) (he1 : eraser ≤ 1)
    (hcr : cr ≤ 2 ^ 15) (hcg : cg ≤ 2 ^ 15) (hcb : cb ≤ 2 ^ 15)
    (hp : ValidPixel p) :
    ValidPixel (composePixel opa eraser cr cg cb p) := by
  obtain ⟨hpr, hpg, hpb, hpa, hra, hga, hba⟩ := hp
  have hA0 := opaFixed_le opa ho1
  have hB := opaBottom_eq opa ho1
  have hA := opaTop_le opa eraser he0 he1
  unfold composePixel ValidPixel u32 u16
  simp only []
  have hoa : opaTop opa eraser ≤ 2 ^ 15 := le_trans hA hA0
  have hob : opaBottom opa ≤ 2 ^ 15 := by omega
  have m1 : opaTop opa eraser * cr ≤ 2 ^ 30 := by
    calc opaTop opa eraser * cr ≤ 2 ^ 15 * 2 ^ 15 := Nat.mul_le_mul hoa hcr
    _ = 2 ^ 30 := by norm_num
  have m2 : opaTop opa eraser * cg ≤ 2 ^ 30 := by
    calc opaTop opa eraser * cg ≤ 2 ^ 15 * 2 ^ 15 := Nat.mul_le_mul hoa hcg
    _ = 2 ^ 30 := by norm_num
  have m3 : opaTop opa eraser * cb ≤ 2 ^ 30 := by
    calc opaTop opa eraser * cb ≤ 2 ^ 15 * 2 ^ 15 := Nat.mul_le_mul hoa hcb
    _ = 2 ^ 30 := by norm_num
  have n0 : opaBottom opa * p.a ≤ opaBottom opa * 2 ^ 15 :=
    Nat.mul_le_mul_left _ hpa
  have nb : opaBottom opa * 2 ^ 15 ≤ 2 ^ 30 := by
    calc opaBottom opa * 2 ^ 15 ≤ 2 ^ 15 * 2 ^ 15 :=
      Nat.mul_le_mul_right _ hob
    _ = 2 ^ 30 := by norm_num
  have q1 : opaBottom opa * p.r ≤ opaBottom opa * p.a :=
    Nat.mul_le_mul_left _ hra
  have q2 : opaBottom opa * p.g ≤ opaBottom opa * p.a :=
    Nat.mul_le_mul_left _ hga
  have q3 : opaBottom opa * p.b ≤ opaBottom opa * p.a :=
    Nat.mul_le_mul_left _ hba
  have s1 : opaTop opa eraser * cr ≤ 2 ^ 15 * opaTop opa eraser := by
    rw [Nat.mul_comm (2 ^ 15)]
    exact Nat.mul_le_mul_left _ hcr
  have s2 : opaTop opa eraser * cg ≤ 2 ^ 15 * opaTop opa eraser := by
    rw [Nat.mul_comm (2 ^ 15)]
    exact Nat.mul_le_mul_left _ hcg
  have s3 : opaTop opa eraser * cb ≤ 2 ^ 15 * opaTop opa eraser := by
    rw [Nat.mul_comm (2 ^ 15)]
    exact Nat.mul_le_mul_left _ hcb
  refine ⟨?_, ?_, ?_, ?_, ?_, ?_, ?_⟩ <;> omega

/-- The hardness falloff keeps the per-pixel opacity within `[0, 1]` for
inputs in the declared ranges and `rr` in `[0, 1]`. -/
lemma dabOpacity_bounds (opaque_ hardness rr : ℚ)
    (ho0 : 0 ≤ opaque_) (ho1 : opaque_ ≤ 1)
    (hh0 : 0 ≤ hardness) (hh1 : hardness ≤ 1)
    (hr0 : 0 ≤ rr) (hr1 : rr ≤ 1) :
    0 ≤ dabOpacity opaque_ hardness rr ∧
    dabOpacity opaque_ hardness rr ≤ 1 := by
  unfold dabOpacity
  split_ifs with h1 h2
  · have hhp : 0 < hardness := lt_of_le_of_lt hr0 h2
    have hd : rr / hardness < 1 := (div_lt_one hhp).mpr h2
    have hd0 : rr ≤ rr / hardness := by
      rw [le_div_iff hhp]
      nlinarith
    constructor
    · apply mul_nonneg ho0; linarith
    · exact mul_le_one ho1 (by linarith) (by linarith)
  · have hr2 : hardness ≤ rr := not_lt.mp h2
    have hkey : hardness / (hardness - 1) * (rr - 1) =
        hardness * (1 - rr) / (1 - hardness) := by
      rw [div_mul_eq_mul_div, div_eq_div_iff (by linarith) (by linarith)]
      ring
    rw [hkey]
    have hf0 : 0 ≤ hardness * (1 - rr) / (1 - hardness) := by
      apply div_nonneg _ (by linarith)
      nlinarith
    have hf1 : hardness * (1 - rr) / (1 - hardness) ≤ 1 := by
      rw [div_le_one (by linarith)]
      nlinarith
    exact ⟨mul_nonneg ho0 hf0, mul_le_one ho1 hf0 hf1⟩
  · exact ⟨ho0, ho1⟩

/-- The normalized squared distance is never negative. -/
lemma rrAt_nonneg (x y radius : ℚ) (tx ty yp xp : Int) :
    0 ≤ rrAt x y radius tx ty yp xp := by
  unfold rrAt
  exact mul_nonneg (add_nonneg (mul_self_nonneg _) (mul_self_nonneg _))
    (div_nonneg zero_le_one (mul_self_nonneg _))

/-- Rasterizing a dab with in-range parameters into a valid tile buffer
keeps every pixel valid. -/
lemma writeTileDab_valid (d : DabParams) (tx ty : Int)
    (ho0 : 0 ≤ d.opaque_) (ho1 : d.opaque_ ≤ 1)
    (hh0 : 0 ≤ d.hardness) (hh1 : d.hardness ≤ 1)
    (he0 : 0 ≤ d.alpha_eraser) (he1 : d.alpha_eraser ≤ 1)
    (hc1 : d.color_r ≤ 1) (hc2 : d.color_g ≤ 1) (hc3 : d.color_b ≤ 1)
    (buf : Int → Pixel) (hbuf : ValidBuf buf) :
    ValidBuf (writeTileDab d tx ty buf) := by
  unfold writeTileDab
  generalize (pixelList (tileClip d.x d.y d.radius tx ty)) = L
  induction L generalizing buf with
  | nil => exact hbuf
  | cons yx rest ih =>
    simp only [List.foldl_cons]
    apply ih
    by_cases hrr : rrAt d.x d.y d.radius tx ty yx.1 yx.2 ≤ 1
    · rw [if_pos hrr]
      intro q
      by_cases hq : q = yx.1 * 64 + yx.2
      · rw [hq, Function.update_same]
        exact composePixel_valid _ _ _ _ _ _
          (dabOpacity_bounds d.opaque_ d.hardness _ ho0 ho1 hh0 hh1
            (rrAt_nonneg d.x d.y d.radius tx ty yx.1 yx.2) hrr).2
          he0 he1 (dabColor_le _ hc1) (dabColor_le _ hc2)
          (dabColor_le _ hc3) (hbuf _)
      · rw [Function.update_noteq hq]
        exact hbuf q
    · rw [if_neg hrr]
      exact hbuf

/-- The tile loop of `draw_dab` preserves heap validity. -/
lemma drawTileLoop_heap (store : Int → Int → Bool → Option Nat)
    (d : DabParams)
    (ho0 : 0 ≤ d.opaque_) (ho1 : d.opaque_ ≤ 1)
    (hh0 : 0 ≤ d.hardness) (hh1 : d.hardness ≤ 1)
    (he0 : 0 ≤ d.alpha_eraser) (he1 : d.alpha_eraser ≤ 1)
    (hc1 : d.color_r ≤ 1) (hc2 : d.color_g ≤ 1) (hc3 : d.color_b ≤ 1)
    (ts : List (Int × Int)) : ∀ w : World, ValidHeap w.heap →
    ValidHeap (drawTileLoop store d ts w).1.heap := by
  induction ts with
  | nil => intro w h; exact h
  | cons t rest ih =>
    intro w hw
    rw [drawTileLoop]
    cases h : (get_tile_memory store w.surf t.1 t.2 false).rgba with
    | none => simp only [h]; exact hw
    | some ref =>
      simp only [h]
      apply ih
      intro r
      show ValidBuf (Function.update w.heap ref
        (writeTileDab d t.1 t.2 (w.heap ref)) r)
      by_cases hr : r = ref
      · rw [hr, Function.update_same]
        exact writeTileDab_valid d t.1 t.2 ho0 ho1 hh0 hh1 he0 he1
          hc1 hc2 hc3 _ (hw ref)
      · rw [Function.update_noteq hr]
        exact hw r

/-- C9: for every dab whose inputs satisfy the declared ranges and every
valid heap (channels in `[0, 2^15]`, premultiplied), `draw_dab` keeps every
pixel of every buffer valid; and at every composited pixel, no intermediate
sum or product of the per-pixel fixed-point arithmetic reaches `2^32`. -/
theorem draw_dab_pixel_invariants (store : Int → Int → Bool → Option Nat)
    (w : World) (d : DabParams)
    (hcr : 0 ≤ d.color_r ∧ d.color_r ≤ 1)
    (hcg : 0 ≤ d.color_g ∧ d.color_g ≤ 1)
    (hcb : 0 ≤ d.color_b ∧ d.color_b ≤ 1)
    (hop : 0 ≤ d.opaque_ ∧ d.opaque_ ≤ 1)
    (hh : 0 ≤ d.hardness ∧ d.hardness ≤ 1)
    (he : 0 ≤ d.alpha_eraser ∧ d.alpha_eraser ≤ 1)
    (hrad : 1 / 10 ≤ d.radius)
    (hheap : ValidHeap w.heap) :
    ValidHeap (draw_dab store w d).2.heap ∧
    (∀ (tx ty yp xp : Int) (p : Pixel), ValidPixel p →
      rrAt d.x d.y d.radius tx ty yp xp ≤ 1 →
      opaTop (dabOpacity d.opaque_ d.hardness
          (rrAt d.x d.y d.radius tx ty yp xp)) d.alpha_eraser *
        dabColor d.color_r +
        opaBottom (dabOpacity d.opaque_ d.hardness
          (rrAt d.x d.y d.radius tx ty yp xp)) * p.r < 2 ^ 32 ∧
      opaTop (dabOpacity d.opaque_ d.hardness
          (rrAt d.x d.y d.radius tx ty yp xp)) d.alpha_eraser *
        dabColor d.color_g +
        opaBottom (dabOpacity d.opaque_ d.hardness
          (rrAt d.x d.y d.radius tx ty yp xp)) * p.g < 2 ^ 32 ∧
      opaTop (dabOpacity d.opaque_ d.hardness
          (rrAt d.x d.y d.radius tx ty yp xp)) d.alpha_eraser *
        dabColor d.color_b +
        opaBottom (dabOpacity d.opaque_ d.hardness
          (rrAt d.x d.y d.radius tx ty yp xp)) * p.b < 2 ^ 32 ∧
      opaBottom (dabOpacity d.opaque_ d.hardness
        (rrAt d.x d.y d.radius tx ty yp xp)) * p.a < 2 ^ 32 ∧
      opaTop (dabOpacity d.opaque_ d.hardness
          (rrAt d.x d.y d.radius tx ty yp xp)) d.alpha_eraser +
        opaBottom (dabOpacity d.opaque_ d.hardness
          (rrAt d.x d.y d.radius tx ty yp xp)) * p.a / 2 ^ 15 < 2 ^ 32) := by
  constructor
  · by_cases h1 : d.opaque_ = 0
    · unfold draw_dab
      rw [if_pos h1]
      exact hheap
    · have h2 : ¬ d.radius < 1 / 10 := not_lt.mpr hrad
      by_cases h3 : d.hardness = 0
      · unfold draw_dab
        rw [if_neg h1, if_neg h2, if_pos h3]
        exact hheap
      · unfold draw_dab
        rw [if_neg h1, if_neg h2, if_neg h3]
        have hmain := drawTileLoop_heap store d hop.1 hop.2 hh.1 hh.2 he.1
          he.2 hcr.2 hcg.2 hcb.2 (tileRange d.x d.y d.radius) w hheap
        cases h4 : (drawTileLoop store d (tileRange d.x d.y d.radius) w).2
        · simp only [h4, Bool.false_eq_true, if_false]
          exact hmain
        · simp only [h4, if_true]
          exact hmain
  · intro tx ty yp xp p hp hrr
    obtain ⟨hpr, hpg, hpb, hpa, hra, hga, hba⟩ := hp
    have hrr0 := rrAt_nonneg d.x d.y d.radius tx ty yp xp
    obtain ⟨hq0, hq1⟩ := dabOpacity_bounds d.opaque_ d.hardness _ hop.1
      hop.2 hh.1 hh.2 hrr0 hrr
    set q := dabOpacity d.opaque_ d.hardness
      (rrAt d.x d.y d.radius tx ty yp xp) with hqdef
    have hA0 := opaFixed_le q hq1
    have hB := opaBottom_eq q hq1
    have hA := opaTop_le q d.alpha_eraser he.1 he.2
    have hoa : opaTop q d.alpha_eraser ≤ 2 ^ 15 := le_trans hA hA0
    have hob : opaBottom q ≤ 2 ^ 15 := by omega
    have hc1 := dabColor_le d.color_r hcr.2
    have hc2 := dabColor_le d.color_g hcg.2
    have hc3 := dabColor_le d.color_b hcb.2
    have m1 : opaTop q d.alpha_eraser * dabColor d.color_r ≤ 2 ^ 30 := by
      calc opaTop q d.alpha_eraser * dabColor d.color_r ≤ 2 ^ 15 * 2 ^ 15 :=
        Nat.mul_le_mul hoa hc1
      _ = 2 ^ 30 := by norm_num
    have m2 : opaTop q d.alpha_eraser * dabColor d.color_g ≤ 2 ^ 30 := by
      calc opaTop q d.alpha_eraser * dabColor d.color_g ≤ 2 ^ 15 * 2 ^ 15 :=
        Nat.mul_le_mul hoa hc2
      _ = 2 ^ 30 := by norm_num
    have m3 : opaTop q d.alpha_eraser * dabColor d.color_b ≤ 2 ^ 30 := by
      calc opaTop q d.alpha_eraser * dabColor d.color_b ≤ 2 ^ 15 * 2 ^ 15 :=
        Nat.mul_le_mul hoa hc3
      _ = 2 ^ 30 := by norm_num
    have n1 : opaBottom q * p.r ≤ 2 ^ 30 := by
      calc opaBottom q * p.r ≤ 2 ^ 15 * 2 ^ 15 :=
        Nat.mul_le_mul hob (le_trans hra hpa)
      _ = 2 ^ 30 := by norm_num
    have n2 : opaBottom q * p.g ≤ 2 ^ 30 := by
      calc opaBottom q * p.g ≤ 2 ^ 15 * 2 ^ 15 :=
        Nat.mul_le_mul hob (le_trans hga hpa)
      _ = 2 ^ 30 := by norm_num
    have n3 : opaBottom q * p.b ≤ 2 ^ 30 := by
      calc opaBottom q * p.b ≤ 2 ^ 15 * 2 ^ 15 :=
        Nat.mul_le_mul hob (le_trans hba hpa)
      _ = 2 ^ 30 := by norm_num
    have na : opaBottom q * p.a ≤ 2 ^ 30 := by
      calc opaBottom q * p.a ≤ 2 ^ 15 * 2 ^ 15 := Nat.mul_le_mul hob hpa
      _ = 2 ^ 30 := by norm_num
    refine ⟨?_, ?_, ?_, ?_, ?_⟩ <;> omega

/-- Concrete instance of C9: the scenario dab on an all-transparent heap,
checked at buffer 1, pixel index 2340 (= 36*64+36), with the intermediate
bound at tile (1,1), pixel (36,36). -/
theorem draw_dab_pixel_invariants_witness :
    ValidPixel ((draw_dab scenarioStore failWorld
      scenarioDab).2.heap 1 2340) ∧
    opaTop (dabOpacity scenarioDab.opaque_ scenarioDab.hardness
        (rrAt scenarioDab.x scenarioDab.y scenarioDab.radius 1 1 36 36))
        scenarioDab.alpha_eraser * dabColor scenarioDab.color_r +
      opaBottom (dabOpacity scenarioDab.opaque_ scenarioDab.hardness
        (rrAt scenarioDab.x scenarioDab.y scenarioDab.radius 1 1 36 36)) *
        (Pixel.mk 0 0 0 0).r < 2 ^ 32 := by
  have hvp : ValidPixel (Pixel.mk 0 0 0 0) :=
    ⟨by decide, by decide, by decide, by decide, by decide, by decide,
     by decide⟩
  have hrr : rrAt scenarioDab.x scenarioDab.y scenarioDab.radius
      1 1 36 36 ≤ 1 := by
    norm_num [rrAt, scenarioDab]
  have h := draw_dab_pixel_invariants scenarioStore failWorld scenarioDab
    (by norm_num [scenarioDab]) (by norm_num [scenarioDab])
    (by norm_num [scenarioDab]) (by norm_num [scenarioDab])
    (by norm_num [scenarioDab]) (by norm_num [scenarioDab])
    (by norm_num [scenarioDab])
    (fun ref q => ⟨Nat.zero_le _, Nat.zero_le _, Nat.zero_le _,
      Nat.zero_le _, Nat.zero_le _, Nat.zero_le _, Nat.zero_le _⟩)
  exact ⟨h.1 1 2340, (h.2 1 1 36 36 (Pixel.mk 0 0 0 0) hvp hrr).1⟩

end MyPaint
